import Mathlib

/-!
Verification development for `src/_scripts/notion-sync.js`, a Notion
database → Jekyll markdown exporter.

The script is embedded shallowly:

* JavaScript strings become Lean `String`s; the anchored regex replace
  `s.replace(/^pre /, repl)` becomes `jsReplaceAnchored`.
* The `notion-to-md` block tree (`{ type, parent, children }`) becomes the
  inductive `MdBlock`; the in-place mutation performed by `shiftHeadings`
  becomes a pure recursive function returning a new tree.
* JavaScript truthiness of optional string-valued expressions
  (`x || dflt`, `x ? a : b`) becomes `jsFalsy` / `jsOrDefault` over
  `Option String` (`none` models `undefined`, `some ""` models the empty
  string, both falsy).
* The async image transformer's thrown `TypeError` (reading `.url` of
  `undefined`) becomes an `Except String` error.
* The main IIFE becomes `runMain`, a pure function from the environment and
  the (mocked) query response to the list of performed effects (the remote
  query, the file writes) plus an optional fatal error.
-/

/-- `jsFalsy v` models JavaScript falsiness of an optional string-valued
expression: `undefined` (here `none`) and the empty string are falsy. -/
def jsFalsy : Option String → Bool
  | none => true
  | some s => s == ""

/-- `jsOrDefault v d` models the JavaScript expression `v || d` where `v` is an
optionally-undefined string. -/
def jsOrDefault (v : Option String) (d : String) : String :=
  match v with
  | none => d
  | some s => if s == "" then d else s

/-- `jsReplaceAnchored s pre repl` models `s.replace(/^<pre>/, repl)` for a
literal, start-anchored pattern: if `s` starts with `pre` that prefix is
replaced by `repl`, otherwise `s` is returned unchanged. -/
def jsReplaceAnchored (s pre repl : String) : String :=
  if pre.data <+: s.data then repl ++ ⟨s.data.drop pre.data.length⟩ else s

/-- A node of the `notion-to-md` intermediate block tree: a Notion block type
tag, the block's own rendered markdown fragment (field `parent` in the
library), and the nested child blocks. -/
inductive MdBlock where
  | mk (type : String) (parent : String) (children : List MdBlock)

/-- The block's Notion type tag (e.g. `heading_1`, `paragraph`, `toggle`). -/
def MdBlock.type : MdBlock → String
  | .mk t _ _ => t

/-- The block's own rendered markdown fragment. -/
def MdBlock.parent : MdBlock → String
  | .mk _ p _ => p

/-- The block's nested child blocks. -/
def MdBlock.children : MdBlock → List MdBlock
  | .mk _ _ cs => cs

/-- The per-block text rewrite performed by `shiftHeadings`
(src/_scripts/notion-sync.js lines 39–45): demote the markdown marker of a
heading-typed block by one level via an anchored replace; leave every other
type's fragment alone. -/
def shiftHeadingText (t p : String) : String :=
  if t = "heading_1" then jsReplaceAnchored p "# " "## "
  else if t = "heading_2" then jsReplaceAnchored p "## " "### "
  else if t = "heading_3" then jsReplaceAnchored p "### " "#### "
  else p

mutual
/-- One block's worth of `shiftHeadings` (src/_scripts/notion-sync.js
lines 36–52): rewrite the fragment according to the type tag and recurse into
the children unconditionally. -/
def shiftHeadingsBlock : MdBlock → MdBlock
  | .mk t p cs => .mk t (shiftHeadingText t p) (shiftHeadings cs)

/-- Pure embedding of `shiftHeadings(blocks)` (src/_scripts/notion-sync.js
lines 36–52); the in-place mutation becomes returning the rewritten tree. -/
def shiftHeadings : List MdBlock → List MdBlock
  | [] => []
  | b :: bs => shiftHeadingsBlock b :: shiftHeadings bs
end

/-- Look a block up in a tree by a path of child indices: `getBlock bs [i₀, i₁, …]`
is block `i₁` of the children of block `i₀` of `bs`, and so on. -/
def getBlock : List MdBlock → List Nat → Option MdBlock
  | _, [] => none
  | bs, i :: is =>
    match bs[i]? with
    | none => none
    | some b => if is = [] then some b else getBlock b.children is

/-- The markdown marker prefix the script expects at the start of a
heading-typed block's fragment. -/
def expectedMarker (t : String) : String :=
  if t = "heading_1" then "# "
  else if t = "heading_2" then "## "
  else if t = "heading_3" then "### "
  else ""

/-- Wrap a block inside a chain of container blocks, outermost first; each pair
gives the container's type tag and its own fragment. -/
def nestContainers : List (String × String) → MdBlock → MdBlock
  | [], b => b
  | (t, p) :: rest, b => .mk t p [nestContainers rest b]

mutual
/-- Erase exactly the data `shiftHeadings` is allowed to change: the `parent`
fragment of heading-typed blocks.  Everything this function keeps — type tags,
non-heading fragments, and the number and order of blocks at every level — is
outside the write footprint claimed for `shiftHeadings`. -/
def frameEraseBlock : MdBlock → MdBlock
  | .mk t p cs =>
    .mk t (if t = "heading_1" ∨ t = "heading_2" ∨ t = "heading_3" then "" else p)
      (frameEraseBlocks cs)

/-- `frameEraseBlock` applied across a block list. -/
def frameEraseBlocks : List MdBlock → List MdBlock
  | [] => []
  | b :: bs => frameEraseBlock b :: frameEraseBlocks bs
end

/-- UTF-8 encoding of one character, as byte values. -/
def utf8Bytes (c : Char) : List Nat :=
  let n := c.toNat
  if n < 128 then [n]
  else if n < 2048 then [192 + n / 64, 128 + n % 64]
  else if n < 65536 then [224 + n / 4096, 128 + (n / 64) % 64, 128 + n % 64]
  else [240 + n / 262144, 128 + (n / 4096) % 64, 128 + (n / 64) % 64, 128 + n % 64]

/-- Uppercase hexadecimal digit for a value below 16. -/
def hexDigitChar (n : Nat) : Char :=
  if n < 10 then Char.ofNat (48 + n) else Char.ofNat (55 + n)

/-- `%XX` escape of one byte. -/
def percentEncodeByte (b : Nat) : List Char :=
  ['%', hexDigitChar (b / 16), hexDigitChar (b % 16)]

/-- The characters JavaScript's `encodeURIComponent` leaves unescaped. -/
def isUnreservedURI (c : Char) : Bool :=
  c.isAlpha || c.isDigit || c ∈ ['-', '_', '.', '!', '~', '*', Char.ofNat 39, '(', ')']

/-- Model of JavaScript's `encodeURIComponent`: unreserved characters pass
through, every other character is replaced by the `%XX` escapes of its UTF-8
bytes. -/
def encodeURIComponent (s : String) : String :=
  ⟨s.data.flatMap fun c =>
    if isUnreservedURI c then [c] else (utf8Bytes c).flatMap percentEncodeByte⟩

/-- A `{ url: … }` payload object (`image.file` or `image.external`). -/
structure UrlHolder where
  url : String
deriving DecidableEq

/-- The `image` payload of a Notion image block: its `type` discriminator and
the two possible (possibly absent) url-holding sub-objects. -/
structure ImagePayload where
  type : String
  file : Option UrlHolder
  external : Option UrlHolder
deriving DecidableEq

/-- A Notion image block as seen by the custom transformer: its own block id
and its `image` payload. -/
structure ImageBlock where
  id : String
  image : ImagePayload
deriving DecidableEq

/-- The custom image transformer (src/_scripts/notion-sync.js lines 16–28):
resolve the source url from the payload (`image.type === "file" ?
image.file.url : image.external.url`; accessing `.url` of an absent sub-object
throws, modelled as `Except.error`), percent-encode it and wrap it in the
Notion proxy-url markdown image reference. -/
def imageTransformer (block : ImageBlock) : Except String String :=
  let image := block.image
  let urlRes : Except String String :=
    if image.type = "file" then
      match image.file with
      | some f => .ok f.url
      | none => .error "TypeError: Cannot read properties of undefined (reading url)"
    else
      match image.external with
      | some e => .ok e.url
      | none => .error "TypeError: Cannot read properties of undefined (reading url)"
  match urlRes with
  | .error e => .error e
  | .ok imageUrl =>
    let blockId := block.id
    let encodedUrl := encodeURIComponent imageUrl
    let proxyUrl :=
      "https://www.notion.so/image/" ++ encodedUrl ++ "?table=block&id=" ++ blockId ++ "&cache=v2"
    .ok ("![image](" ++ proxyUrl ++ ")")

/-- The directly-hosted payload shape: `type` is `"file"` and the `file`
sub-object with its url is present. -/
def hasDirectFileShape (p : ImagePayload) : Prop :=
  p.type = "file" ∧ p.file ≠ none

/-- The externally-hosted payload shape: `type` is not `"file"` (the code's
dichotomy, i.e. `"external"` in practice) and the `external` sub-object with
its url is present. -/
def hasExternalShape (p : ImagePayload) : Prop :=
  p.type ≠ "file" ∧ p.external ≠ none

/-- Modelled from the spec: the conversion helper (`notion-to-md`, not part of
this repository) applies the registered image transformer to every image block
of a record while converting it, and a transformer failure rejects the whole
record's conversion — "no error is caught or retried anywhere inside the
pipeline". `convertImages` is that per-record application over the record's
image blocks. -/
def convertImages : List ImageBlock → Except String (List String)
  | [] => .ok []
  | b :: bs =>
    match imageTransformer b with
    | .error e => .error e
    | .ok s =>
      match convertImages bs with
      | .error e => .error e
      | .ok rest => .ok (s :: rest)

/-- The property set of one queried Notion page, reduced to what the script
reads.  Each rich-text-backed property is the (possibly absent) list of its
runs' `plain_text` values; `category` is the select's (possibly absent) name;
`tags` is the (possibly absent) list of multi-select names; `date` is the
(possibly absent) `date.start` string.  `none` models any broken link of the
script's optional chain. -/
structure PageProps where
  title : Option (List String)
  page_id : Option (List String)
  description : Option (List String)
  thumbnail_url : Option (List String)
  category : Option String
  tags : Option (List String)
  date : Option String
deriving DecidableEq

/-- One record of the query response, together with the (mocked) block tree the
per-record `pageToMarkdown` fetch would return for it. -/
structure Page where
  id : String
  properties : PageProps
  mdBlocks : List MdBlock

/-- `runs?.[0]?.plain_text` — the first run's text, if any. -/
def firstPlainText (runs : Option (List String)) : Option String :=
  runs.bind List.head?

/-- The page id with every dash removed — `page.id.replace` with the global
dash regex and the empty replacement. -/
def removeDashes (s : String) : String :=
  ⟨s.data.filter fun c => c ≠ '-'⟩

/-- `page.properties?.title?.title?.[0]?.plain_text || "Untitled"`
(src/_scripts/notion-sync.js line 88). -/
def extractTitle (page : Page) : String :=
  jsOrDefault (firstPlainText page.properties.title) "Untitled"

/-- `page.properties?.page_id?.rich_text?.[0]?.plain_text` with the dash-free
page id as the fallback (src/_scripts/notion-sync.js lines 91–93). -/
def extractPageId (page : Page) : String :=
  jsOrDefault (firstPlainText page.properties.page_id) (removeDashes page.id)

/-- `page.properties?.description?.rich_text?.[0]?.plain_text || ""`
(src/_scripts/notion-sync.js lines 96–97). -/
def extractDescription (page : Page) : String :=
  jsOrDefault (firstPlainText page.properties.description) ""

/-- `page.properties?.thumbnail_url?.rich_text?.[0]?.plain_text`
(src/_scripts/notion-sync.js lines 101–102). -/
def extractThumbnailUrl (page : Page) : Option String :=
  firstPlainText page.properties.thumbnail_url

/-- `thumbnailUrl ? image-front-matter-template : ""`
(src/_scripts/notion-sync.js lines 103–108). -/
def imageFrontmatterOf (page : Page) : String :=
  match extractThumbnailUrl page with
  | none => ""
  | some u =>
    if u == "" then ""
    else "image:\n  path: \"" ++ u ++ "\"\n  alt: \"preview image\"\n"

/-- `page.properties?.category?.select?.name || "blog"`
(src/_scripts/notion-sync.js line 111). -/
def extractCategory (page : Page) : String :=
  jsOrDefault page.properties.category "blog"

/-- `(page.properties?.tags?.multi_select || []).map((t) => t.name)`
(src/_scripts/notion-sync.js line 114); note an empty array is truthy in
JavaScript, so only an absent property falls back to `[]`. -/
def extractTags (page : Page) : List String :=
  page.properties.tags.getD []

/-- `page.properties?.date?.date?.start || moment().format("YYYY-MM-DD")`
(src/_scripts/notion-sync.js lines 117–118); `now` is the formatted current
date. -/
def extractDate (page : Page) (now : String) : String :=
  jsOrDefault page.properties.date now

/-- The `tags: ["…"]` front-matter line: `tags.join('", "')` spliced into the
template (src/_scripts/notion-sync.js line 130). -/
def renderTagsLine (tags : List String) : String :=
  "tags: [\"" ++ String.intercalate "\", \"" tags ++ "\"]"

/-- The front-matter template (src/_scripts/notion-sync.js lines 126–136),
with every interpolation spelled out. -/
def frontmatterOf (page : Page) (now : String) : String :=
  "---\ntitle: \"" ++ extractTitle page ++ "\"\ndate: " ++ extractDate page now ++
    "\ncategories: [\"" ++ extractCategory page ++ "\"]\n" ++
    renderTagsLine (extractTags page) ++
    "\ndescription: \"" ++ extractDescription page ++ "\"\npermalink: /posts/" ++
    extractPageId page ++ "\nmath: true\n" ++ imageFrontmatterOf page ++ "---\n\n"

mutual
/-- Modelled from the spec: the conversion helper's `toMarkdownString`
(`notion-to-md`, not part of this repository) flattens the block tree into one
body by concatenating each block's own fragment with its children's fragments
in depth-first, pre-order sequence. -/
def flattenBlock : MdBlock → String
  | .mk _ p cs => p ++ flattenBlocks cs

/-- `flattenBlock` across a block list, preserving source order. -/
def flattenBlocks : List MdBlock → String
  | [] => ""
  | b :: bs => flattenBlock b ++ flattenBlocks bs
end

/-- One iteration of the per-record loop (src/_scripts/notion-sync.js
lines 86–144), as the pair (filename, file content): the filename is
`` `${date}-${pageId}.md` `` and the content is the front matter followed by
the markdown body of the shifted block tree. -/
def processPage (now : String) (page : Page) : String × String :=
  (extractDate page now ++ "-" ++ extractPageId page ++ ".md",
    frontmatterOf page now ++ flattenBlocks (shiftHeadings page.mdBlocks))

/-- One observable effect of the run: the database query, or one file write
into the output directory. -/
inductive SyncEvent where
  | query
  | write (filename : String) (content : String)

/-- The two environment variables the script reads. -/
structure Env where
  NOTION_TOKEN : Option String
  DATABASE_ID : Option String

/-- Look an environment variable up by name. -/
def envVar (env : Env) : String → Option String :=
  fun n =>
    if n = "NOTION_TOKEN" then env.NOTION_TOKEN
    else if n = "DATABASE_ID" then env.DATABASE_ID
    else none

/-- The main async IIFE (src/_scripts/notion-sync.js lines 54–145) as a pure
function: given the environment, the current date and the (mocked) query
response, return the list of performed effects in order, plus the fatal error
(caught by the top-level `.catch`) if one is thrown.  The env checks at
lines 56–62 run before the query; on failure nothing else happens. -/
def runMain (env : Env) (now : String) (pages : List Page) :
    List SyncEvent × Option String :=
  if jsFalsy env.DATABASE_ID then
    ([], some "Missing required environment variable: DATABASE_ID")
  else if jsFalsy env.NOTION_TOKEN then
    ([], some "Missing required environment variable: NOTION_TOKEN")
  else
    (SyncEvent.query ::
      pages.map (fun p => SyncEvent.write (processPage now p).1 (processPage now p).2),
      none)

/-- `writeFileSync` over a file-system modelled as a map from filename to
content: the named file now holds exactly the new content (silently replacing
any previous content), every other file is untouched. -/
def writeFileS (fs : String → Option String) (filename content : String) :
    String → Option String :=
  fun n => if n = filename then some content else fs n

/-- A page with every optional property absent, used to exercise the
defaults. -/
def exEmptyPage : Page :=
  { id := "9f8e-7d6c", mdBlocks := [],
    properties :=
      { title := none, page_id := none, description := none, thumbnail_url := none,
        category := none, tags := none, date := none } }

/-- A page whose properties are present but JavaScript-falsy (empty rich-text
lists, empty first runs, empty select name, empty date start). -/
def exFalsyPage : Page :=
  { id := "ab-cd", mdBlocks := [],
    properties :=
      { title := some [], page_id := some [""], description := some [],
        thumbnail_url := none, category := some "", tags := none, date := some "" } }

/-- An environment with both required variables present. -/
def exGoodEnv : Env :=
  { NOTION_TOKEN := some "secret-token", DATABASE_ID := some "db-1" }

/-- A pre-existing file-system state, used to exercise overwriting. -/
def exFS : String → Option String :=
  fun _ => some "old contents"

/-- A directly-hosted image block. -/
def exFileImage : ImageBlock :=
  { id := "blockid123",
    image := { type := "file", file := some ⟨"https://files.example.com/a b.png"⟩,
               external := none } }

/-- An externally-hosted image block. -/
def exExternalImage : ImageBlock :=
  { id := "blockid456",
    image := { type := "external", file := none, external := some ⟨"http://img.example.org/p.png"⟩ } }

/-- An image block with neither url shape: `type` is `"file"` but the `file`
sub-object is absent. -/
def exBadImage : ImageBlock :=
  { id := "blockid789", image := { type := "file", file := none, external := some ⟨"u"⟩ } }

theorem shiftHeadings_eq_map (bs : List MdBlock) :
    shiftHeadings bs = bs.map shiftHeadingsBlock := by
  induction bs with
  | nil => rfl
  | cons b bs ih => rw [shiftHeadings, List.map_cons, ih]

theorem jsReplaceAnchored_pos (s pre repl : String) (h : pre.data <+: s.data) :
    jsReplaceAnchored s pre repl = repl ++ ⟨s.data.drop pre.data.length⟩ := by
  unfold jsReplaceAnchored
  rw [if_pos h]

theorem jsReplaceAnchored_neg (s pre repl : String) (h : ¬ pre.data <+: s.data) :
    jsReplaceAnchored s pre repl = s := by
  unfold jsReplaceAnchored
  rw [if_neg h]

theorem shiftHeadingText_h1_def (p : String) :
    shiftHeadingText "heading_1" p = jsReplaceAnchored p "# " "## " := rfl

theorem shiftHeadingText_h2_def (p : String) :
    shiftHeadingText "heading_2" p = jsReplaceAnchored p "## " "### " := rfl

theorem shiftHeadingText_h3_def (p : String) :
    shiftHeadingText "heading_3" p = jsReplaceAnchored p "### " "#### " := rfl

theorem shiftHeadingText_other (t p : String) (h1 : t ≠ "heading_1")
    (h2 : t ≠ "heading_2") (h3 : t ≠ "heading_3") : shiftHeadingText t p = p := by
  unfold shiftHeadingText
  rw [if_neg h1, if_neg h2, if_neg h3]

theorem shiftHeadingText_matched_h1 (p : String) (h : "# ".data <+: p.data) :
    shiftHeadingText "heading_1" p = "#" ++ p := by
  obtain ⟨t, ht⟩ := h
  rw [shiftHeadingText_h1_def, jsReplaceAnchored_pos p _ _ ⟨t, ht⟩]
  apply String.ext
  rw [String.data_append, String.data_append, ← ht]
  show "## ".data ++ (("# ".data ++ t).drop ("# ".data.length)) = "#".data ++ ("# ".data ++ t)
  rw [List.drop_left]
  rfl

theorem shiftHeadingText_matched_h2 (p : String) (h : "## ".data <+: p.data) :
    shiftHeadingText "heading_2" p = "#" ++ p := by
  obtain ⟨t, ht⟩ := h
  rw [shiftHeadingText_h2_def, jsReplaceAnchored_pos p _ _ ⟨t, ht⟩]
  apply String.ext
  rw [String.data_append, String.data_append, ← ht]
  show "### ".data ++ (("## ".data ++ t).drop ("## ".data.length)) = "#".data ++ ("## ".data ++ t)
  rw [List.drop_left]
  rfl

theorem shiftHeadingText_matched_h3 (p : String) (h : "### ".data <+: p.data) :
    shiftHeadingText "heading_3" p = "#" ++ p := by
  obtain ⟨t, ht⟩ := h
  rw [shiftHeadingText_h3_def, jsReplaceAnchored_pos p _ _ ⟨t, ht⟩]
  apply String.ext
  rw [String.data_append, String.data_append, ← ht]
  show "#### ".data ++ (("### ".data ++ t).drop ("### ".data.length)) =
    "#".data ++ ("### ".data ++ t)
  rw [List.drop_left]
  rfl

theorem not_h1_marker_after_shift (t : List Char) : ¬ ("# ".data <+: ('#' :: '#' :: t)) := by
  intro h
  rw [show "# ".data = ['#', ' '] from rfl, List.cons_prefix_cons] at h
  obtain ⟨-, h⟩ := h
  rw [List.cons_prefix_cons] at h
  exact absurd h.1 (by decide)

theorem not_h2_marker_after_shift (t : List Char) :
    ¬ ("## ".data <+: ('#' :: '#' :: '#' :: t)) := by
  intro h
  rw [show "## ".data = ['#', '#', ' '] from rfl, List.cons_prefix_cons] at h
  obtain ⟨-, h⟩ := h
  rw [List.cons_prefix_cons] at h
  obtain ⟨-, h⟩ := h
  rw [List.cons_prefix_cons] at h
  exact absurd h.1 (by decide)

theorem not_h3_marker_after_shift (t : List Char) :
    ¬ ("### ".data <+: ('#' :: '#' :: '#' :: '#' :: t)) := by
  intro h
  rw [show "### ".data = ['#', '#', '#', ' '] from rfl, List.cons_prefix_cons] at h
  obtain ⟨-, h⟩ := h
  rw [List.cons_prefix_cons] at h
  obtain ⟨-, h⟩ := h
  rw [List.cons_prefix_cons] at h
  obtain ⟨-, h⟩ := h
  rw [List.cons_prefix_cons] at h
  exact absurd h.1 (by decide)

theorem shiftHeadingText_invol_h1 (p : String) :
    shiftHeadingText "heading_1" (shiftHeadingText "heading_1" p) =
      shiftHeadingText "heading_1" p := by
  by_cases h : ("# ".data <+: p.data)
  · obtain ⟨t, ht⟩ := h
    rw [shiftHeadingText_matched_h1 p ⟨t, ht⟩, shiftHeadingText_h1_def]
    apply jsReplaceAnchored_neg
    rw [String.data_append, ← ht]
    show ¬ ("# ".data <+: ('#' :: '#' :: ' ' :: t))
    exact not_h1_marker_after_shift _
  · simp only [shiftHeadingText_h1_def, jsReplaceAnchored_neg p _ _ h]

theorem shiftHeadingText_invol_h2 (p : String) :
    shiftHeadingText "heading_2" (shiftHeadingText "heading_2" p) =
      shiftHeadingText "heading_2" p := by
  by_cases h : ("## ".data <+: p.data)
  · obtain ⟨t, ht⟩ := h
    rw [shiftHeadingText_matched_h2 p ⟨t, ht⟩, shiftHeadingText_h2_def]
    apply jsReplaceAnchored_neg
    rw [String.data_append, ← ht]
    show ¬ ("## ".data <+: ('#' :: '#' :: '#' :: ' ' :: t))
    exact not_h2_marker_after_shift _
  · simp only [shiftHeadingText_h2_def, jsReplaceAnchored_neg p _ _ h]

theorem shiftHeadingText_invol_h3 (p : String) :
    shiftHeadingText "heading_3" (shiftHeadingText "heading_3" p) =
      shiftHeadingText "heading_3" p := by
  by_cases h : ("### ".data <+: p.data)
  · obtain ⟨t, ht⟩ := h
    rw [shiftHeadingText_matched_h3 p ⟨t, ht⟩, shiftHeadingText_h3_def]
    apply jsReplaceAnchored_neg
    rw [String.data_append, ← ht]
    show ¬ ("### ".data <+: ('#' :: '#' :: '#' :: '#' :: ' ' :: t))
    exact not_h3_marker_after_shift _
  · simp only [shiftHeadingText_h3_def, jsReplaceAnchored_neg p _ _ h]

theorem shiftHeadingText_invol (t p : String) :
    shiftHeadingText t (shiftHeadingText t p) = shiftHeadingText t p := by
  by_cases h1 : t = "heading_1"
  · subst h1; exact shiftHeadingText_invol_h1 p
  by_cases h2 : t = "heading_2"
  · subst h2; exact shiftHeadingText_invol_h2 p
  by_cases h3 : t = "heading_3"
  · subst h3; exact shiftHeadingText_invol_h3 p
  rw [shiftHeadingText_other t _ h1 h2 h3, shiftHeadingText_other t _ h1 h2 h3]

mutual
theorem shiftHeadingsBlock_invol (b : MdBlock) :
    shiftHeadingsBlock (shiftHeadingsBlock b) = shiftHeadingsBlock b := by
  cases b with
  | mk t p cs =>
    simp only [shiftHeadingsBlock, shiftHeadings_invol cs, shiftHeadingText_invol]

theorem shiftHeadings_invol (bs : List MdBlock) :
    shiftHeadings (shiftHeadings bs) = shiftHeadings bs := by
  cases bs with
  | nil => rfl
  | cons b bs =>
    simp only [shiftHeadings, shiftHeadingsBlock_invol b, shiftHeadings_invol bs]
end

theorem shiftHeadingsBlock_type (b : MdBlock) :
    (shiftHeadingsBlock b).type = b.type := by
  cases b with
  | mk t p cs => rfl

theorem shiftHeadingsBlock_parent (b : MdBlock) :
    (shiftHeadingsBlock b).parent = shiftHeadingText b.type b.parent := by
  cases b with
  | mk t p cs => rfl

theorem shiftHeadingsBlock_children (b : MdBlock) :
    (shiftHeadingsBlock b).children = shiftHeadings b.children := by
  cases b with
  | mk t p cs => rfl

theorem getBlock_shiftHeadings (is : List Nat) :
    ∀ bs : List MdBlock, getBlock (shiftHeadings bs) is =
      (getBlock bs is).map shiftHeadingsBlock := by
  induction is with
  | nil => intro bs; rfl
  | cons i is ih =>
    intro bs
    rw [getBlock, getBlock, shiftHeadings_eq_map, List.getElem?_map]
    cases h : bs[i]? with
    | none => rfl
    | some b =>
      show (if is = [] then some (shiftHeadingsBlock b)
          else getBlock (shiftHeadingsBlock b).children is) =
        Option.map shiftHeadingsBlock (if is = [] then some b else getBlock b.children is)
      by_cases he : is = []
      · rw [if_pos he, if_pos he]; rfl
      · rw [if_neg he, if_neg he, shiftHeadingsBlock_children, ih]

theorem shiftHeadingText_heading_matched (t p : String)
    (hh : t = "heading_1" ∨ t = "heading_2" ∨ t = "heading_3")
    (hm : (expectedMarker t).data <+: p.data) :
    shiftHeadingText t p = "#" ++ p := by
  rcases hh with h | h | h <;> subst h
  · exact shiftHeadingText_matched_h1 p hm
  · exact shiftHeadingText_matched_h2 p hm
  · exact shiftHeadingText_matched_h3 p hm

theorem shiftHeadingText_heading_unmatched (t p : String)
    (hh : t = "heading_1" ∨ t = "heading_2" ∨ t = "heading_3")
    (hm : ¬ (expectedMarker t).data <+: p.data) :
    shiftHeadingText t p = p := by
  rcases hh with h | h | h <;> subst h
  · rw [shiftHeadingText_h1_def]; exact jsReplaceAnchored_neg p _ _ hm
  · rw [shiftHeadingText_h2_def]; exact jsReplaceAnchored_neg p _ _ hm
  · rw [shiftHeadingText_h3_def]; exact jsReplaceAnchored_neg p _ _ hm

mutual
theorem frameEraseBlock_shift (b : MdBlock) :
    frameEraseBlock (shiftHeadingsBlock b) = frameEraseBlock b := by
  cases b with
  | mk t p cs =>
    simp only [shiftHeadingsBlock, frameEraseBlock, frameEraseBlocks_shift cs]
    by_cases h : t = "heading_1" ∨ t = "heading_2" ∨ t = "heading_3"
    · rw [if_pos h, if_pos h]
    · push_neg at h
      rw [if_neg, if_neg, shiftHeadingText_other t p h.1 h.2.1 h.2.2]
      · push_neg; exact h
      · push_neg; exact h

theorem frameEraseBlocks_shift (bs : List MdBlock) :
    frameEraseBlocks (shiftHeadings bs) = frameEraseBlocks bs := by
  cases bs with
  | nil => rfl
  | cons b bs =>
    simp only [shiftHeadings, frameEraseBlocks, frameEraseBlock_shift b,
      frameEraseBlocks_shift bs]
end

theorem shiftHeadings_length (bs : List MdBlock) :
    (shiftHeadings bs).length = bs.length := by
  rw [shiftHeadings_eq_map, List.length_map]

theorem convertImages_error_of_mem (blocks : List ImageBlock) (b : ImageBlock)
    (hmem : b ∈ blocks) (herr : (imageTransformer b).isOk = false) :
    (convertImages blocks).isOk = false := by
  induction blocks with
  | nil => cases hmem
  | cons hd tl ih =>
    rw [convertImages]
    rcases List.mem_cons.mp hmem with hb | hb
    · subst hb
      cases h : imageTransformer b with
      | error e => rfl
      | ok s => rw [h] at herr; cases herr
    · cases h : imageTransformer hd with
      | error e => rfl
      | ok s =>
        cases h2 : convertImages tl with
        | error e => rfl
        | ok rest =>
          have hok := ih hb
          rw [h2] at hok
          cases hok

/-- C1: the claim asserts non-idempotence of `shiftHeadings` on matching input;
in fact the code is idempotent.  This counterexample instantiates the claim at
a one-block tree whose single block is a `heading_1` with fragment `"# a"`
(which starts with its expected marker `"# "`): applying `shiftHeadings` twice
yields the same tree as applying it once, refuting the claimed inequality. -/
theorem shiftHeadings_nonidempotence_counterexample :
    (getBlock [MdBlock.mk "heading_1" "# a" []] [0]).map MdBlock.type = some "heading_1" ∧
    (getBlock [MdBlock.mk "heading_1" "# a" []] [0]).map MdBlock.parent = some "# a" ∧
    ("# ".data <+: "# a".data) ∧
    shiftHeadings (shiftHeadings [MdBlock.mk "heading_1" "# a" []]) =
      shiftHeadings [MdBlock.mk "heading_1" "# a" []] :=
  ⟨rfl, rfl, by decide, rfl⟩

/-- C1 (amended): `shiftHeadings` is idempotent on every block tree — applying
it twice yields exactly the tree of applying it once, because a demoted
heading's fragment (e.g. `"## a"` for a `heading_1`) no longer starts with the
expected marker of its type, so the second pass leaves it unchanged. -/
theorem shiftHeadings_idempotent (bs : List MdBlock) :
    shiftHeadings (shiftHeadings bs) = shiftHeadings bs :=
  shiftHeadings_invol bs

/-- C2: for every block of the tree (addressed by an arbitrary path) whose
type tag is `heading_1`, `heading_2` or `heading_3`: if its fragment starts
with the expected marker (`"# "`, `"## "`, `"### "` respectively), after
`shiftHeadings` the fragment is exactly `"#"` prepended to the old fragment
(one additional `#`); if it does not, the fragment is unchanged — a silent
no-op, not an error. -/
theorem shiftHeadings_demotes_matched_heading (bs : List MdBlock) (path : List Nat)
    (b : MdBlock) (hb : getBlock bs path = some b)
    (hh : b.type = "heading_1" ∨ b.type = "heading_2" ∨ b.type = "heading_3") :
    ((expectedMarker b.type).data <+: b.parent.data →
      (getBlock (shiftHeadings bs) path).map MdBlock.parent = some ("#" ++ b.parent)) ∧
    (¬ (expectedMarker b.type).data <+: b.parent.data →
      (getBlock (shiftHeadings bs) path).map MdBlock.parent = some b.parent) := by
  rw [getBlock_shiftHeadings, hb]
  constructor
  · intro hm
    show some (shiftHeadingsBlock b).parent = some ("#" ++ b.parent)
    rw [shiftHeadingsBlock_parent, shiftHeadingText_heading_matched b.type b.parent hh hm]
  · intro hm
    show some (shiftHeadingsBlock b).parent = some b.parent
    rw [shiftHeadingsBlock_parent, shiftHeadingText_heading_unmatched b.type b.parent hh hm]

/-- C2 witness: in the one-block tree `[heading_2 "## x"]` the fragment becomes
`"### x"`; a `heading_1` whose fragment `"no marker"` lacks the expected
marker is left unchanged. -/
theorem shiftHeadings_demotes_matched_heading_witness :
    (getBlock (shiftHeadings [MdBlock.mk "heading_2" "## x" []]) [0]).map MdBlock.parent =
      some "### x" ∧
    (getBlock (shiftHeadings [MdBlock.mk "heading_1" "no marker" []]) [0]).map
        MdBlock.parent = some "no marker" :=
  ⟨(shiftHeadings_demotes_matched_heading [MdBlock.mk "heading_2" "## x" []] [0]
      (MdBlock.mk "heading_2" "## x" []) rfl (Or.inr (Or.inl rfl))).1 (by decide),
   (shiftHeadings_demotes_matched_heading [MdBlock.mk "heading_1" "no marker" []] [0]
      (MdBlock.mk "heading_1" "no marker" []) rfl (Or.inl rfl)).2 (by decide)⟩

theorem shiftHeadingsBlock_nestContainers (b : MdBlock) :
    ∀ ctx : List (String × String),
      (∀ c ∈ ctx, c.1 ≠ "heading_1" ∧ c.1 ≠ "heading_2" ∧ c.1 ≠ "heading_3") →
      shiftHeadingsBlock (nestContainers ctx b) = nestContainers ctx (shiftHeadingsBlock b) := by
  intro ctx
  induction ctx with
  | nil => intro _; rfl
  | cons c rest ih =>
    intro h
    obtain ⟨t, p⟩ := c
    have hc := h (t, p) (List.mem_cons_self _ _)
    rw [nestContainers, nestContainers]
    show MdBlock.mk t (shiftHeadingText t p) (shiftHeadings [nestContainers rest b]) =
      MdBlock.mk t p [nestContainers rest (shiftHeadingsBlock b)]
    rw [shiftHeadingText_other t p hc.1 hc.2.1 hc.2.2]
    show MdBlock.mk t p [shiftHeadingsBlock (nestContainers rest b)] =
      MdBlock.mk t p [nestContainers rest (shiftHeadingsBlock b)]
    rw [ih fun x hx => h x (List.mem_cons_of_mem _ hx)]

/-- C3: a heading block wrapped inside an arbitrary-depth chain of non-heading
container blocks is transformed by `shiftHeadings` exactly as it would be at
top level: shifting the wrapped singleton tree wraps `shiftHeadingsBlock b`
(the very transformation a top-level tree `[b]` receives) in the untouched
containers, because the recursion into `children` is unconditional. -/
theorem shiftHeadings_reaches_nested_headings (ctx : List (String × String)) (b : MdBlock)
    (hctx : ∀ c ∈ ctx, c.1 ≠ "heading_1" ∧ c.1 ≠ "heading_2" ∧ c.1 ≠ "heading_3") :
    shiftHeadings [nestContainers ctx b] = [nestContainers ctx (shiftHeadingsBlock b)] ∧
    shiftHeadings [b] = [shiftHeadingsBlock b] := by
  constructor
  · show [shiftHeadingsBlock (nestContainers ctx b)] = _
    rw [shiftHeadingsBlock_nestContainers b ctx hctx]
  · rfl

/-- C3 witness: a `heading_1` two containers deep (a toggle containing a
column) is demoted to `"## deep"`, exactly as at top level. -/
theorem shiftHeadings_reaches_nested_headings_witness :
    shiftHeadings
        [nestContainers [("toggle", "toggle line"), ("column", "")]
          (MdBlock.mk "heading_1" "# deep" [])] =
      [nestContainers [("toggle", "toggle line"), ("column", "")]
        (MdBlock.mk "heading_1" "## deep" [])] :=
  (shiftHeadings_reaches_nested_headings [("toggle", "toggle line"), ("column", "")]
    (MdBlock.mk "heading_1" "# deep" []) (by decide)).1

/-- C10: `shiftHeadings` writes nothing but the `parent` fragment of
heading-typed blocks: erasing exactly those fragments (`frameEraseBlocks`)
makes the shifted tree equal to the original, so every type tag, every
non-heading block's fragment, every other field and the number and order of
blocks at every level are unchanged; in particular the top-level count is
preserved. -/
theorem shiftHeadings_frame (bs : List MdBlock) :
    frameEraseBlocks (shiftHeadings bs) = frameEraseBlocks bs ∧
    (shiftHeadings bs).length = bs.length :=
  ⟨frameEraseBlocks_shift bs, shiftHeadings_length bs⟩

/-- C4: for a directly-hosted image block (`type` `"file"` with a url) the
transformer returns exactly the markdown proxy reference
`![image](https://www.notion.so/image/<E>?table=block&id=<I>&cache=v2)` where
`<E>` is the percent-encoded original file url and `<I>` is the block's own
id; an externally-hosted block produces the same pattern from the external
url. -/
theorem imageTransformer_proxy_pattern (b : ImageBlock) (u : String) :
    (b.image.type = "file" → b.image.file = some ⟨u⟩ →
      imageTransformer b =
        .ok ("![image](https://www.notion.so/image/" ++ encodeURIComponent u ++
          "?table=block&id=" ++ b.id ++ "&cache=v2)")) ∧
    (b.image.type ≠ "file" → b.image.external = some ⟨u⟩ →
      imageTransformer b =
        .ok ("![image](https://www.notion.so/image/" ++ encodeURIComponent u ++
          "?table=block&id=" ++ b.id ++ "&cache=v2)")) := by
  obtain ⟨bid, pty, pfile, pext⟩ := b
  constructor
  · intro ht hf
    replace ht : pty = "file" := ht
    replace hf : pfile = some ⟨u⟩ := hf
    subst ht
    subst hf
    show Except.ok ("![image](" ++ ("https://www.notion.so/image/" ++
        encodeURIComponent u ++ "?table=block&id=" ++ bid ++ "&cache=v2") ++ ")") = _
    apply congrArg
    apply String.ext
    simp only [String.data_append, List.append_assoc]
    rfl
  · intro ht hf
    replace ht : pty ≠ "file" := ht
    replace hf : pext = some ⟨u⟩ := hf
    subst hf
    show (match (if pty = "file" then
          match pfile with
          | some f => Except.ok f.url
          | none =>
            Except.error "TypeError: Cannot read properties of undefined (reading url)"
        else Except.ok u : Except String String) with
      | Except.error e => Except.error e
      | Except.ok imageUrl =>
        Except.ok ("![image](" ++ ("https://www.notion.so/image/" ++
          encodeURIComponent imageUrl ++ "?table=block&id=" ++ bid ++ "&cache=v2") ++ ")")) = _
    rw [if_neg ht]
    show Except.ok ("![image](" ++ ("https://www.notion.so/image/" ++
        encodeURIComponent u ++ "?table=block&id=" ++ bid ++ "&cache=v2") ++ ")") = _
    apply congrArg
    apply String.ext
    simp only [String.data_append, List.append_assoc]
    rfl

/-- C4 witness: the two concrete image blocks produce the literal proxy
references, with the file url percent-encoded and the block id inserted. -/
theorem imageTransformer_proxy_pattern_witness :
    imageTransformer exFileImage =
      Except.ok
        "![image](https://www.notion.so/image/https%3A%2F%2Ffiles.example.com%2Fa%20b.png?table=block&id=blockid123&cache=v2)" ∧
    imageTransformer exExternalImage =
      Except.ok
        "![image](https://www.notion.so/image/http%3A%2F%2Fimg.example.org%2Fp.png?table=block&id=blockid456&cache=v2)" :=
  ⟨(imageTransformer_proxy_pattern exFileImage "https://files.example.com/a b.png").1 rfl rfl,
   (imageTransformer_proxy_pattern exExternalImage "http://img.example.org/p.png").2
     (by decide) rfl⟩

/-- C6: an image block whose payload has neither the directly-hosted shape nor
the externally-hosted shape makes the transformer fail (the thrown
`TypeError`, not a silent default), and any record whose block list contains
such a block has its whole conversion fail. -/
theorem imageTransformer_shape_violation (b : ImageBlock)
    (h1 : ¬ hasDirectFileShape b.image) (h2 : ¬ hasExternalShape b.image) :
    (imageTransformer b).isOk = false ∧
    ∀ blocks : List ImageBlock, b ∈ blocks → (convertImages blocks).isOk = false := by
  have herr : (imageTransformer b).isOk = false := by
    obtain ⟨bid, pty, pfile, pext⟩ := b
    replace h1 : ¬ (pty = "file" ∧ pfile ≠ none) := h1
    replace h2 : ¬ (pty ≠ "file" ∧ pext ≠ none) := h2
    by_cases ht : pty = "file"
    · have hf : pfile = none := by
        by_contra hne
        exact h1 ⟨ht, hne⟩
      subst ht
      subst hf
      rfl
    · have hf : pext = none := by
        by_contra hne
        exact h2 ⟨ht, hne⟩
      subst hf
      clear h1 h2
      simp only [imageTransformer]
      rw [if_neg ht]
      rfl
  exact ⟨herr, fun blocks hmem => convertImages_error_of_mem blocks b hmem herr⟩

/-- C6 witness: `exBadImage` (`type` `"file"` but no `file` sub-object) fails
the transformer, and a record consisting of just that block fails wholesale. -/
theorem imageTransformer_shape_violation_witness :
    (imageTransformer exBadImage).isOk = false ∧
    (convertImages [exBadImage]).isOk = false :=
  have h := imageTransformer_shape_violation exBadImage (fun hd => hd.2 rfl)
    (fun he => he.1 rfl)
  ⟨h.1, h.2 [exBadImage] (List.mem_singleton.mpr rfl)⟩

/-- C5: every front-matter field falls back to its specified default when the
property is absent — title `"Untitled"`, slug the dash-free page id,
description the empty string, category `"blog"`, date the current run date,
tags the empty list (which the template renders as the line
`tags: [""]`); no absent field is an error, each extractor is total. -/
theorem frontmatter_defaults (page : Page) (now : String) :
    (page.properties.title = none → extractTitle page = "Untitled") ∧
    (page.properties.page_id = none → extractPageId page = removeDashes page.id) ∧
    (page.properties.description = none → extractDescription page = "") ∧
    (page.properties.category = none → extractCategory page = "blog") ∧
    (page.properties.date = none → extractDate page now = now) ∧
    (page.properties.tags = none →
      extractTags page = [] ∧ renderTagsLine (extractTags page) = "tags: [\"\"]") := by
  refine ⟨?_, ?_, ?_, ?_, ?_, ?_⟩
  · intro h
    unfold extractTitle firstPlainText
    rw [h]
    rfl
  · intro h
    unfold extractPageId firstPlainText
    rw [h]
    rfl
  · intro h
    unfold extractDescription firstPlainText
    rw [h]
    rfl
  · intro h
    unfold extractCategory
    rw [h]
    rfl
  · intro h
    unfold extractDate
    rw [h]
    rfl
  · intro h
    unfold extractTags
    rw [h]
    exact ⟨rfl, rfl⟩

/-- C5 witness: on a page with every property absent the defaults appear, the
slug is the id `"9f8e-7d6c"` with the dash removed, and the tags line renders
as `tags: [""]`. -/
theorem frontmatter_defaults_witness :
    extractTitle exEmptyPage = "Untitled" ∧
    extractPageId exEmptyPage = "9f8e7d6c" ∧
    extractDescription exEmptyPage = "" ∧
    extractCategory exEmptyPage = "blog" ∧
    extractDate exEmptyPage "2024-05-05" = "2024-05-05" ∧
    extractTags exEmptyPage = [] ∧
    renderTagsLine (extractTags exEmptyPage) = "tags: [\"\"]" :=
  have h := frontmatter_defaults exEmptyPage "2024-05-05"
  ⟨h.1 rfl, h.2.1 rfl, h.2.2.1 rfl, h.2.2.2.1 rfl, h.2.2.2.2.1 rfl,
   (h.2.2.2.2.2 rfl).1, (h.2.2.2.2.2 rfl).2⟩

/-- C9: defaulting is driven by JavaScript falsiness, not only by absence — a
property that is present but empty (an empty rich-text list, a first run whose
text is empty, an empty select name, an empty date start) receives the same
default as a missing property. -/
theorem frontmatter_defaults_on_falsy (page : Page) (now : String) :
    (page.properties.title = some [] → extractTitle page = "Untitled") ∧
    (∀ rest, page.properties.title = some ("" :: rest) → extractTitle page = "Untitled") ∧
    (page.properties.page_id = some [] → extractPageId page = removeDashes page.id) ∧
    (∀ rest, page.properties.page_id = some ("" :: rest) →
      extractPageId page = removeDashes page.id) ∧
    (page.properties.description = some [] → extractDescription page = "") ∧
    (∀ rest, page.properties.description = some ("" :: rest) →
      extractDescription page = "") ∧
    (page.properties.category = some "" → extractCategory page = "blog") ∧
    (page.properties.date = some "" → extractDate page now = now) := by
  refine ⟨?_, ?_, ?_, ?_, ?_, ?_, ?_, ?_⟩
  · intro h
    unfold extractTitle firstPlainText
    rw [h]
    rfl
  · intro rest h
    unfold extractTitle firstPlainText
    rw [h]
    rfl
  · intro h
    unfold extractPageId firstPlainText
    rw [h]
    rfl
  · intro rest h
    unfold extractPageId firstPlainText
    rw [h]
    rfl
  · intro h
    unfold extractDescription firstPlainText
    rw [h]
    rfl
  · intro rest h
    unfold extractDescription firstPlainText
    rw [h]
    rfl
  · intro h
    unfold extractCategory
    rw [h]
    rfl
  · intro h
    unfold extractDate
    rw [h]
    rfl

/-- C9 witness: `exFalsyPage` has a present-but-empty title list, a first
page-id run equal to `""`, an empty description list, an empty select name and
an empty date start; each receives its default, the slug falling back to the
dash-free page id `"abcd"`. -/
theorem frontmatter_defaults_on_falsy_witness :
    extractTitle exFalsyPage = "Untitled" ∧
    extractPageId exFalsyPage = "abcd" ∧
    extractDescription exFalsyPage = "" ∧
    extractCategory exFalsyPage = "blog" ∧
    extractDate exFalsyPage "2024-05-05" = "2024-05-05" :=
  have h := frontmatter_defaults_on_falsy exFalsyPage "2024-05-05"
  ⟨h.1 rfl, h.2.2.2.1 [] rfl, h.2.2.2.2.1 rfl, h.2.2.2.2.2.2.1 rfl,
   h.2.2.2.2.2.2.2 rfl⟩

/-- C7: when the database-id variable is falsy the run stops at once with the
fatal message naming `DATABASE_ID`; when it passes but the token variable is
falsy, the fatal message names `NOTION_TOKEN`.  In both cases the effect list
is empty: no network call is made and no file is written. -/
theorem env_missing_fatal (env : Env) (now : String) (pages : List Page) :
    (jsFalsy env.DATABASE_ID = true →
      runMain env now pages =
        ([], some "Missing required environment variable: DATABASE_ID")) ∧
    (jsFalsy env.DATABASE_ID = false → jsFalsy env.NOTION_TOKEN = true →
      runMain env now pages =
        ([], some "Missing required environment variable: NOTION_TOKEN")) := by
  constructor
  · intro h
    simp [runMain, h]
  · intro hdb htk
    simp [runMain, hdb, htk]

/-- C7 witness: with both variables absent the run fails naming
`DATABASE_ID` (checked first) and performs no effect; with the database id
present and the token absent it fails naming `NOTION_TOKEN`. -/
theorem env_missing_fatal_witness :
    runMain { NOTION_TOKEN := none, DATABASE_ID := none } "2024-05-05" [] =
      ([], some "Missing required environment variable: DATABASE_ID") ∧
    runMain { NOTION_TOKEN := none, DATABASE_ID := some "db-1" } "2024-05-05" [] =
      ([], some "Missing required environment variable: NOTION_TOKEN") :=
  ⟨(env_missing_fatal { NOTION_TOKEN := none, DATABASE_ID := none } "2024-05-05" []).1 rfl,
   (env_missing_fatal { NOTION_TOKEN := none, DATABASE_ID := some "db-1" }
     "2024-05-05" []).2 rfl rfl⟩

theorem frontmatterOf_delimited (page : Page) (now : String) :
    frontmatterOf page now =
      "---\n" ++
        ("title: \"" ++ extractTitle page ++ "\"\ndate: " ++ extractDate page now ++
          "\ncategories: [\"" ++ extractCategory page ++ "\"]\n" ++
          renderTagsLine (extractTags page) ++ "\ndescription: \"" ++
          extractDescription page ++ "\"\npermalink: /posts/" ++ extractPageId page ++
          "\nmath: true\n" ++ imageFrontmatterOf page) ++ "---\n\n" := by
  apply String.ext
  simp only [frontmatterOf, String.data_append, List.append_assoc]
  rfl

theorem frontmatterOf_math_flag (page : Page) (now : String) :
    frontmatterOf page now =
      ("---\ntitle: \"" ++ extractTitle page ++ "\"\ndate: " ++ extractDate page now ++
        "\ncategories: [\"" ++ extractCategory page ++ "\"]\n" ++
        renderTagsLine (extractTags page) ++ "\ndescription: \"" ++
        extractDescription page ++ "\"\npermalink: /posts/" ++ extractPageId page ++
        "\n") ++ "math: true\n" ++ (imageFrontmatterOf page ++ "---\n\n") := by
  apply String.ext
  simp only [frontmatterOf, String.data_append, List.append_assoc]
  rfl

/-- C8: for every record one file write happens — the run (with both env
variables present) performs the query and then exactly one write per record,
in order; the filename is `<date>-<slug>.md`; the content is the front-matter
header followed by the markdown body; the header starts and ends with the
`---` marker line and always contains the literal `math: true` line; and the
write replaces whatever the target file previously held. -/
theorem one_file_per_record (env : Env) (now : String) (pages : List Page) (page : Page)
    (hdb : jsFalsy env.DATABASE_ID = false) (htk : jsFalsy env.NOTION_TOKEN = false) :
    (runMain env now pages).1 =
      SyncEvent.query ::
        pages.map (fun p => SyncEvent.write (processPage now p).1 (processPage now p).2) ∧
    (processPage now page).1 = extractDate page now ++ "-" ++ extractPageId page ++ ".md" ∧
    (processPage now page).2 =
      frontmatterOf page now ++ flattenBlocks (shiftHeadings page.mdBlocks) ∧
    (∃ mid, frontmatterOf page now = "---\n" ++ mid ++ "---\n\n") ∧
    (∃ a b, frontmatterOf page now = a ++ "math: true\n" ++ b) ∧
    (∀ fs : String → Option String,
      writeFileS fs (processPage now page).1 (processPage now page).2 (processPage now page).1 =
        some (processPage now page).2) := by
  refine ⟨?_, rfl, rfl, ?_, ?_, ?_⟩
  · simp [runMain, hdb, htk]
  · exact ⟨_, frontmatterOf_delimited page now⟩
  · exact ⟨_, _, frontmatterOf_math_flag page now⟩
  · intro fs
    unfold writeFileS
    rw [if_pos rfl]

/-- C8 witness: with a good environment and the all-defaults page the run
performs the query and exactly one write; writing over a file system where the
target already exists leaves the new content. -/
theorem one_file_per_record_witness :
    (runMain exGoodEnv "2024-05-05" [exEmptyPage]).1 =
      [SyncEvent.query,
        SyncEvent.write (processPage "2024-05-05" exEmptyPage).1
          (processPage "2024-05-05" exEmptyPage).2] ∧
    (processPage "2024-05-05" exEmptyPage).1 = "2024-05-05-9f8e7d6c.md" ∧
    writeFileS exFS (processPage "2024-05-05" exEmptyPage).1
        (processPage "2024-05-05" exEmptyPage).2 (processPage "2024-05-05" exEmptyPage).1 =
      some (processPage "2024-05-05" exEmptyPage).2 :=
  have h := one_file_per_record exGoodEnv "2024-05-05" [exEmptyPage] exEmptyPage rfl rfl
  ⟨h.1, h.2.1.trans rfl, h.2.2.2.2.2 exFS⟩
